import Mathlib

/-!
Verification of the LCMmodel streaming snapshot playback and render scheduler.

Shallow embedding of the client in `static/main.js` (the optimized iteration:
snapshot queue, catch-up draw loop, dirty-region tracking, one-shot viewport
fit, web-worker offload) and of the worker `static/data_processing_worker.js`.

Numbers are modelled as rationals `ℚ` (the JS code uses IEEE doubles, but all
properties at stake are exact-arithmetic properties: orderings, clamps and
bookkeeping, not rounding).  The only deliberate deviations, each noted at its
definition, are: square roots are tracked as squared distances (with
comparisons against squared thresholds, justified by monotonicity of `sqrt`
on nonnegatives), and `Queue.js`, which is imported by the client but absent
from the repository, is modelled from the specification as a FIFO list.
-/

/-! ## Constants of `Robot.js` and `main.js` -/

/-- Robot.ROBOT_X_POS_FACTOR = 1 (`Robot.js`). -/
def ROBOT_X_POS_FACTOR : ℚ := 1

/-- Robot.ROBOT_Y_POS_FACTOR = 1 (`Robot.js`, "changed from -1 to 1"). -/
def ROBOT_Y_POS_FACTOR : ℚ := 1

/-- RENDER_THROTTLE_MS = 16 (`main.js`). -/
def RENDER_THROTTLE_MS : ℚ := 16

/-- timePerFrameMs = 17 (`main.js`; never mutated). -/
def timePerFrameMs : ℚ := 17

/-! ## Data model -/

/-- One entry of a snapshot's `robotsHistory` map: in the source it is the
array `[pos, state, _, _, multiplicity, light]` with `pos = [x, y]`. -/
structure RobotSnap where
  pos : ℚ × ℚ
  state : String
  multiplicity : ℕ
  light : String
deriving DecidableEq

/-- One client snapshot: the source array `[time, robotsHistory]`.
`robotsHistory` is a JS object; we keep its entries as an association list in
iteration order (JS object keys are unique). -/
structure Snapshot where
  time : ℚ
  robotsHistory : List (String × RobotSnap)
deriving DecidableEq

/-- One tracked robot object (`Robot.js`): the fields that playback reads or
writes.  Rendering-only bookkeeping of `Robot.js` (renderColor, colorHistory,
timestamps) is not observable by any claim and is omitted. -/
structure RobotObj where
  x : ℚ
  y : ℚ
  id : String
  color : String
  speed : ℚ
  multiplicity : ℕ
  isCanvasCoordinates : Bool
  state : String
deriving DecidableEq

/-- One dirty region as pushed by `addDirtyRegion(x, y, size)`. -/
structure Region where
  x : ℚ
  y : ℚ
  size : ℚ
deriving DecidableEq

/-- Association-list lookup, modelling JS object/Map indexing by key. -/
def mapLookup (l : List (String × α)) (k : String) : Option α :=
  (l.find? (fun p => p.1 == k)).map (·.2)

/-- Association-list update, modelling JS object/Map assignment by key:
replaces the binding if present, otherwise appends it. -/
def mapSet (l : List (String × α)) (k : String) (v : α) : List (String × α) :=
  if (l.find? (fun p => p.1 == k)).isSome then
    l.map (fun p => if p.1 == k then (k, v) else p)
  else l ++ [(k, v)]

/-- Mutable client state of `main.js` (the free-standing `let` variables that
the playback core reads and writes).  The snapshot payload type `σ` is a
parameter because the ingress handlers never inspect the payload (JS is
untyped); the draw loop instantiates `σ := Snapshot`.
`timeDisplay` models the `#time-value` element text (`none` = cleared). -/
structure ClientState (σ : Type) where
  robots : List (String × RobotObj)
  snapshotQueue : List σ
  dirtyRegions : List Region
  robotPrevPositions : List (String × (ℚ × ℚ))
  paused : Bool
  lastFrameTime : ℚ
  lastRenderTime : ℚ
  stopAnimation : Bool
  currRobotId : ℕ
  simulationId : Option ℕ
  sec : List ((ℚ × ℚ) × ℚ)
  drawingSimulation : Bool
  viewScale : ℚ
  viewCenterX : ℚ
  viewCenterY : ℚ
  needsViewportUpdate : Bool
  isFirstRender : Bool
  timeDisplay : Option ℚ
  initialPositions : List (ℚ × ℚ)
deriving DecidableEq

/-! ## Lifecycle controller (`main.js`) -/

/-- startDrawingLoop(): stopAnimation = false; drawingSimulation = true;
lastFrameTime = performance.now(); (the requestAnimationFrame call schedules
ticks and is modelled by the tick events themselves). -/
def startDrawingLoop (s : ClientState σ) (now : ℚ) : ClientState σ :=
  { s with stopAnimation := false, drawingSimulation := true, lastFrameTime := now }

/-- clearSimulation() of `main.js`: resets canvas and every piece of playback
state.  `clearCanvas()` also empties the dirty-region set.  Note the fields it
does NOT touch: `stopAnimation` and `lastRenderTime`. -/
def clearSimulation (s : ClientState σ) : ClientState σ :=
  { s with
    dirtyRegions := []
    timeDisplay := none
    simulationId := none
    snapshotQueue := []
    robots := []
    lastFrameTime := 0
    currRobotId := 0
    initialPositions := []
    paused := false
    sec := []
    drawingSimulation := false
    viewScale := 1
    viewCenterX := 0
    viewCenterY := 0
    needsViewportUpdate := true
    robotPrevPositions := []
    isFirstRender := true }

/-- start_simulation handler: clearSimulation(); simulationId = fresh id;
socket.emit("start_simulation", …); startDrawingLoop().  The run id is an
opaque token, modelled as `ℕ`. -/
def startSimulationFn (s : ClientState σ) (newId : ℕ) (now : ℚ) : ClientState σ :=
  startDrawingLoop { clearSimulation s with simulationId := some newId } now

/-- Message kinds posted to the offload worker (the `type` field of
`dataWorker.postMessage`). -/
inductive WorkerMsgKind
  | processBatch
  | calculateStats
  | clearCache
  | detectMovement
deriving DecidableEq

/-- socket.on("simulation_start") handler: simulationId = data;
dirtyRegions.clear(); robotPrevPositions = {}; and, when the worker exists,
postMessage({type: clear_cache}).  Returns the new state and the list of
worker messages posted. -/
def onSimulationStartEmits (workerAvailable : Bool) (s : ClientState σ) (newId : ℕ) :
    ClientState σ × List WorkerMsgKind :=
  ({ s with simulationId := some newId, dirtyRegions := [], robotPrevPositions := [] },
   if workerAvailable then [WorkerMsgKind.clearCache] else [])

/-- clearSimulation paired with the worker messages it posts: the source
`clearSimulation()` contains no `dataWorker.postMessage` call at all, so the
emitted list is empty whether or not a worker exists. -/
def clearSimulationEmits (s : ClientState σ) : ClientState σ × List WorkerMsgKind :=
  (clearSimulation s, [])

/-! ## Ingress boundary (`main.js` socket handlers) -/

/-- One delivered `{simulation_id, snapshot}` record (a parsed
`simulation_data` message, or one element of a `simulation_data_batch`). -/
structure SimulationDataItem (σ : Type) where
  simulation_id : ℕ
  snapshot : σ
deriving DecidableEq

/-- socket.on("simulation_data") handler: enqueue the snapshot only when the
run id matches the active simulationId, else drop with a diagnostic. -/
def onSimulationData (now : ℚ) (s : ClientState σ) (d : SimulationDataItem σ) :
    ClientState σ :=
  if s.simulationId = some d.simulation_id then
    let s1 := startDrawingLoop s now
    { s1 with snapshotQueue := s1.snapshotQueue ++ [d.snapshot] }
  else s

/-- socket.on("simulation_data_batch") handler.  `none` models an absent or
non-array `_data.batch` (warn and return).  With a worker the batch is posted
as a `process_batch` message (the enqueueing then happens in
`processBatchResults` on the response); without one, the synchronous fallback
checks the run id of the FIRST item only and, when it matches, enqueues every
item's snapshot.  The trailing `batch_ack` socket emit is not a worker
message. -/
def onSimulationDataBatch (workerAvailable : Bool) (now : ℚ) (s : ClientState σ)
    (d : Option (List (SimulationDataItem σ))) : ClientState σ × List WorkerMsgKind :=
  match d with
  | none => (s, [])
  | some batch =>
    if workerAvailable then (s, [WorkerMsgKind.processBatch])
    else
      match batch with
      | [] => (s, [])
      | first :: _ =>
        let s1 := startDrawingLoop s now
        if s1.simulationId ≠ some first.simulation_id then (s1, [])
        else ({ s1 with snapshotQueue := s1.snapshotQueue ++ batch.map (·.snapshot) }, [])

/-! ## Offload worker (`data_processing_worker.js`) -/

/-- The robot details the worker reads from a batch item's snapshot:
`details.pos` with fields `x`, `y`. -/
structure WorkerRobotDetails where
  pos : ℚ × ℚ
deriving DecidableEq

/-- The snapshot view the worker's movement analysis expects on a batch item:
an object mapping robot id to details, or `none` for a null/undefined
`snapshot` field (the guard `!snapshot.snapshot`). -/
abbrev WorkerSnapshot := Option (List (String × WorkerRobotDetails))

/-- calculationCache of the worker: key `"${id}-prev-pos"` (keyed here by the
id, from which the literal key is a bijective renaming) to the cached
position. -/
abbrev Cache := List (String × (ℚ × ℚ))

/-- One recorded movement: the worker stores the euclidean `distance`
(a square root, irrational in general) and compares it to
`movementThreshold = 0.01`; this embedding stores the squared distance and
compares against the squared threshold, which is equivalent since `sqrt` is
monotone on nonnegatives. -/
structure Movement where
  id : String
  distanceSq : ℚ
  significant : Bool
deriving DecidableEq

/-- Result of `calculateRobotMovements`. -/
structure RobotMovements where
  significantMovement : Bool
  movements : List Movement
deriving DecidableEq

/-- calculateDistance(x1, y1, x2, y2) squared: dx*dx + dy*dy (the source
returns `Math.sqrt` of this; see `Movement`). -/
def calculateDistanceSq (x1 y1 x2 y2 : ℚ) : ℚ :=
  (x2 - x1) * (x2 - x1) + (y2 - y1) * (y2 - y1)

/-- movementThreshold = 0.01, squared. -/
def movementThresholdSq : ℚ := 1 / 10000

/-- Loop body of `calculateRobotMovements`: for each `[id, details]` entry,
look up the previous position in the cache; if present, push a movement
record (significant iff distance exceeds the threshold) and accumulate the
significance flag; in every case update the cache with the current
position. -/
def calcMovesGo : List (String × WorkerRobotDetails) → Cache → List Movement → Bool →
    RobotMovements × Cache
  | [], c, ms, sig => ({ significantMovement := sig, movements := ms }, c)
  | (id, d) :: rest, c, ms, sig =>
    match mapLookup c id with
    | some prev =>
      let dsq := calculateDistanceSq d.pos.1 d.pos.2 prev.1 prev.2
      calcMovesGo rest (mapSet c id d.pos)
        (ms ++ [⟨id, dsq, decide (dsq > movementThresholdSq)⟩])
        (sig || decide (dsq > movementThresholdSq))
    | none => calcMovesGo rest (mapSet c id d.pos) ms sig

/-- calculateRobotMovements(snapshot): `snapshot` is the batch item; the
guard `!snapshot || !snapshot.snapshot` returns the empty result (a typed
list has no null items, so only the inner field can be absent). -/
def calculateRobotMovements (item : SimulationDataItem WorkerSnapshot) (c : Cache) :
    RobotMovements × Cache :=
  match item.snapshot with
  | none => ({ significantMovement := false, movements := [] }, c)
  | some entries => calcMovesGo entries c [] false

/-- One element of the worker's `processBatch` output:
`{...snapshot, robotMovements, needsFullRedraw}` — the original item's own
fields plus the two computed ones. -/
structure ProcessedItem where
  item : SimulationDataItem WorkerSnapshot
  robotMovements : RobotMovements
  needsFullRedraw : Bool
deriving DecidableEq

/-- The `snapshots.map` of `processBatch`, threading the shared mutable
`calculationCache` left to right (JS `map` evaluates in order). -/
def processBatchGo : List (SimulationDataItem WorkerSnapshot) → Cache →
    List ProcessedItem × Cache
  | [], c => ([], c)
  | it :: rest, c =>
    let rm := calculateRobotMovements it c
    let tail := processBatchGo rest rm.2
    (⟨it, rm.1, rm.1.significantMovement⟩ :: tail.1, tail.2)

/-- processBatch(snapshots): `none` models a null or non-array argument
(`!snapshots || !Array.isArray(snapshots)`), returning `[]`. -/
def processBatch (input : Option (List (SimulationDataItem WorkerSnapshot))) (c : Cache) :
    List ProcessedItem × Cache :=
  match input with
  | none => ([], c)
  | some l => processBatchGo l c

/-- processBatchResults (client, on the worker's batch_processed response):
for each processed item set `needsViewportUpdate` when it needs a full
redraw, and enqueue its snapshot only when its run id matches the active
simulation (starting the drawing loop first).  The source's
`!processedData || length === 0` guard returns the state unchanged.
This is the per-item loop body of `processBatchResults`. -/
def processBatchResultItem (now : ℚ) (st : ClientState WorkerSnapshot)
    (p : ProcessedItem) : ClientState WorkerSnapshot :=
  let st1 := if p.needsFullRedraw then { st with needsViewportUpdate := true } else st
  if st1.simulationId = some p.item.simulation_id then
    let st2 := startDrawingLoop st1 now
    { st2 with snapshotQueue := st2.snapshotQueue ++ [p.item.snapshot] }
  else st1

/-- processBatchResults: the empty-guard and the forEach over the processed
items (see `processBatchResultItem`). -/
def processBatchResults (now : ℚ) (s : ClientState WorkerSnapshot)
    (pd : List ProcessedItem) : ClientState WorkerSnapshot :=
  if pd.isEmpty then s
  else pd.foldl (processBatchResultItem now) s

/-- Worker round trip for a batch: the client posts process_batch, the worker
runs `processBatch`, and the client consumes the response in
`processBatchResults`. -/
def batchViaWorker (now : ℚ) (s : ClientState WorkerSnapshot)
    (b : List (SimulationDataItem WorkerSnapshot)) (c : Cache) :
    ClientState WorkerSnapshot × Cache :=
  let pr := processBatch (some b) c
  (processBatchResults now s pr.1, pr.2)

/-! ## Worker statistics (`calculateStats`) -/

/-- One element of `stats.robot_details`. -/
structure RobotDetail where
  distance_travelled : ℚ
  color : String
  terminated : Bool
  final_position : ℚ × ℚ
deriving DecidableEq

/-- The stats fields `calculateStats` reads.  Further payload fields are
carried through the `{...stats}` spread unchanged and are represented by this
same record inside `ExtStats.base`. -/
structure Stats where
  total_distance : ℚ
  final_time : ℚ
  robot_details : List RobotDetail
deriving DecidableEq

/-- The `simulation_stats` payload: `data.stats` may be absent. -/
structure StatsPayload where
  stats : Option Stats
deriving DecidableEq

/-- calculateVariance(values). -/
def calculateVariance (values : List ℚ) : ℚ :=
  if values.isEmpty then 0
  else
    let mean := values.sum / values.length
    ((values.map (fun v => (v - mean) ^ 2)).sum) / values.length

/-- Math.max(...values) over a nonempty list (folded from the head). -/
def listMax : List ℚ → ℚ
  | [] => 0
  | v :: rest => rest.foldl max v

/-- Math.min(...values) over a nonempty list (folded from the head). -/
def listMin : List ℚ → ℚ
  | [] => 0
  | v :: rest => rest.foldl min v

/-- Color histogram: `colorCounts[robot.color] = (colorCounts[robot.color] || 0) + 1`. -/
def colorCountsOf (details : List RobotDetail) : List (String × ℕ) :=
  details.foldl (fun acc r =>
    match mapLookup acc r.color with
    | some n => mapSet acc r.color (n + 1)
    | none => mapSet acc r.color 1) []

/-- Extended statistics `{...stats, efficiency, distanceVariance, ...}`;
the added fields are `none` when `robot_details` is empty (the enrichment
block is skipped). -/
structure ExtStats where
  base : Stats
  efficiency : Option ℚ
  distanceVariance : Option ℚ
  maxDistance : Option ℚ
  minDistance : Option ℚ
  colorDistribution : Option (List (String × ℕ))
  terminationRate : Option ℚ
  averagePosition : Option (ℚ × ℚ)
deriving DecidableEq

/-- calculateStats(data): null for a missing payload or missing `data.stats`
(`!data || !data.stats`); otherwise the spread of the stats plus the derived
metrics when `robot_details` is nonempty. -/
def calculateStats (d : Option StatsPayload) : Option ExtStats :=
  match d with
  | none => none
  | some p =>
    match p.stats with
    | none => none
    | some stats =>
      if stats.robot_details.length > 0 then
        let distances := stats.robot_details.map (·.distance_travelled)
        some
          { base := stats
            efficiency := some (stats.total_distance / max 1 stats.final_time)
            distanceVariance := some (calculateVariance distances)
            maxDistance := some (listMax distances)
            minDistance := some (listMin distances)
            colorDistribution := some (colorCountsOf stats.robot_details)
            terminationRate :=
              some (((stats.robot_details.filter (·.terminated)).length : ℚ) /
                stats.robot_details.length)
            averagePosition :=
              some ((stats.robot_details.map (·.final_position.1)).sum /
                  stats.robot_details.length,
                (stats.robot_details.map (·.final_position.2)).sum /
                  stats.robot_details.length) }
      else
        some { base := stats, efficiency := none, distanceVariance := none,
               maxDistance := none, minDistance := none, colorDistribution := none,
               terminationRate := none, averagePosition := none }

/-- Composition of the `simulation_stats` socket handler with the worker and
`updateExtendedStats`: with a worker, the payload is posted as
calculate_stats and `calculateStats` of it is delivered back; without one the
handler body does nothing — there is no synchronous stats fallback — so no
result is ever delivered (`none`). -/
def statsResultDelivered (workerAvailable : Bool) (d : Option StatsPayload) :
    Option (Option ExtStats) :=
  if workerAvailable then some (calculateStats d) else none

/-! ## Viewport fitter and dirty-region tracker (`main.js`) -/

/-- Configuration read at tick time: the canvas dimensions and the
`configOptions` / `Robot.ROBOT_SIZE` values the draw path consults. -/
structure Config where
  canvasW : ℚ
  canvasH : ℚ
  robotSize : ℚ
  show_visibility : Bool
  visibility_radius : ℚ
deriving DecidableEq

/-- First-render viewport fit of `drawSnapshot`: bounding box of all robot
positions (the JS `±Infinity` fold seeds reduce to a fold from the first
element on a nonempty list), padded by 200 on each side; scale fits the
padded box into `canvas / ROBOT_*_POS_FACTOR` and is clamped by
`Math.max(Math.min(scaleX, scaleY, 1.0), 0.3)`; center is the box center.
`none` models the empty-history case, where the JS arithmetic yields
NaN/Infinity values that have no rational counterpart. -/
def fitScaleCenter (canvasW canvasH : ℚ) (rh : List (String × RobotSnap)) :
    Option (ℚ × ℚ × ℚ) :=
  match rh with
  | [] => none
  | e :: rest =>
    let minX := (rest.foldl (fun m p => min m p.2.pos.1) e.2.pos.1) - 200
    let minY := (rest.foldl (fun m p => min m p.2.pos.2) e.2.pos.2) - 200
    let maxX := (rest.foldl (fun m p => max m p.2.pos.1) e.2.pos.1) + 200
    let maxY := (rest.foldl (fun m p => max m p.2.pos.2) e.2.pos.2) + 200
    let width := maxX - minX
    let height := maxY - minY
    let scaleX := (canvasW / ROBOT_X_POS_FACTOR) / width
    let scaleY := (canvasH / ROBOT_Y_POS_FACTOR) / height
    some (max (min scaleX (min scaleY 1)) (3 / 10), (minX + maxX) / 2, (minY + maxY) / 2)

/-- Size of the dirty region recorded for a robot's PREVIOUS position:
`Math.max(Robot.ROBOT_SIZE * 2, configOptions.visibility_radius || 20)`
(the `||` turns a zero radius into 20). -/
def oldRegionSize (cfg : Config) : ℚ :=
  max (cfg.robotSize * 2)
    (if cfg.visibility_radius = 0 then 20 else cfg.visibility_radius)

/-- The dirty region(s) added for a robot's previous position: one region at
the previous position scaled by the position factors, added only when a
previous position is recorded and `moveDistance = Math.hypot(dx, dy) > 0`
(equivalently the squared distance is positive). -/
def oldPosRegions (cfg : Config) (prev : Option (ℚ × ℚ)) (pos : ℚ × ℚ) : List Region :=
  match prev with
  | none => []
  | some (px, py) =>
    if (pos.1 - px) * (pos.1 - px) + (pos.2 - py) * (pos.2 - py) > 0 then
      [⟨px * ROBOT_X_POS_FACTOR, py * ROBOT_Y_POS_FACTOR, oldRegionSize cfg⟩]
    else []

/-- Robot.getCanvasPosition(). -/
def robotCanvasPosition (r : RobotObj) : ℚ × ℚ :=
  if r.isCanvasCoordinates then (r.x, r.y)
  else (r.x * ROBOT_X_POS_FACTOR, r.y * ROBOT_Y_POS_FACTOR)

/-- `maxRadius` of drawRobot — also its `dirtySize`, the two expressions in
the source are identical:
`Math.max(robotRadius * 2, 30) + (show_visibility ? visibility_radius : 0)`. -/
def robotMaxRadius (cfg : Config) : ℚ :=
  max (cfg.robotSize * 2) 30 + (if cfg.show_visibility then cfg.visibility_radius else 0)

/-- drawRobot's culling test: the robot is skipped entirely (no drawing, no
dirty region) when it lies outside the visible canvas area with margin. -/
def offCanvas (cfg : Config) (p : ℚ × ℚ) : Bool :=
  (p.1 + robotMaxRadius cfg < 0) || (p.1 - robotMaxRadius cfg > cfg.canvasW) ||
  (p.2 + robotMaxRadius cfg < 0) || (p.2 - robotMaxRadius cfg > cfg.canvasH)

/-- The dirty region added by drawRobot for the robot's current canvas
position (empty when the robot is culled). -/
def newPosRegions (cfg : Config) (r : RobotObj) : List Region :=
  if offCanvas cfg (robotCanvasPosition r) then []
  else [⟨(robotCanvasPosition r).1, (robotCanvasPosition r).2, robotMaxRadius cfg⟩]

/-- The robot object after the per-entry update of `drawSnapshot`: creation
via `new Robot(x, y, id, light, 1, multiplicity)` when absent (state starts
INACTIVE, world coordinates), else `setColor(light)`; then `setPosition`,
`setState` and the multiplicity assignment. -/
def updatedRobot (s : ClientState Snapshot) (e : String × RobotSnap) : RobotObj :=
  let base : RobotObj :=
    match mapLookup s.robots e.1 with
    | none =>
      { x := e.2.pos.1, y := e.2.pos.2, id := e.1, color := e.2.light, speed := 1,
        multiplicity := e.2.multiplicity, isCanvasCoordinates := false,
        state := "INACTIVE" }
    | some r => { r with color := e.2.light }
  { base with
    x := e.2.pos.1
    y := e.2.pos.2
    state := e.2.state
    multiplicity := e.2.multiplicity }

/-- Per-robot loop body of `drawSnapshot`: record the old-position dirty
region for a moved robot, update the robot object and its previous-position
entry, then draw the robot (which records the new-position dirty region
unless culled). -/
def processEntry (cfg : Config) (s : ClientState Snapshot) (e : String × RobotSnap) :
    ClientState Snapshot :=
  let r := updatedRobot s e
  { s with
    dirtyRegions := s.dirtyRegions ++
      oldPosRegions cfg (mapLookup s.robotPrevPositions e.1) e.2.pos ++
      newPosRegions cfg r
    robots := mapSet s.robots e.1 r
    robotPrevPositions := mapSet s.robotPrevPositions e.1 e.2.pos }

/-- First-render branch of `drawSnapshot`: on the first rendered snapshot of
a run, compute the viewport fit, request a full viewport update and clear the
first-render flag.  With an empty robots history the JS arithmetic degenerates
to NaN (no rational value); the flags are still flipped. -/
def applyFirstRenderFit (canvasW canvasH : ℚ) (s : ClientState Snapshot)
    (snap : Snapshot) : ClientState Snapshot :=
  if s.isFirstRender then
    match fitScaleCenter canvasW canvasH snap.robotsHistory with
    | some r =>
      { s with
        viewScale := r.1
        viewCenterX := r.2.1
        viewCenterY := r.2.2
        needsViewportUpdate := true
        isFirstRender := false }
    | none => { s with needsViewportUpdate := true, isFirstRender := false }
  else s

/-- drawSnapshot(snapshot): update the displayed time, run the one-shot
viewport fit, empty the dirty-region set (full clear when a viewport update
is pending, drain-and-clear otherwise — either way the set is emptied before
the robot loop), process every robots-history entry in order, and reset the
viewport-update flag. -/
def drawSnapshot (cfg : Config) (s : ClientState Snapshot) (snap : Snapshot) :
    ClientState Snapshot :=
  let s1 := { s with timeDisplay := some snap.time }
  let s2 := applyFirstRenderFit cfg.canvasW cfg.canvasH s1 snap
  let s3 := { s2 with dirtyRegions := [] }
  let s4 := snap.robotsHistory.foldl (processEntry cfg) s3
  { s4 with needsViewportUpdate := false }

/-! ## Render scheduler (`drawLoop`) -/

/-- Catch-up policy: `snapshotsToProcess = 1`, or
`Math.min(3, Math.floor(queue.size / 2))` when `queue.size > 5`. -/
def snapshotsToProcessCount (size : ℕ) : ℕ :=
  if size > 5 then min 3 (size / 2) else 1

/-- The dequeue-and-draw loop of one tick: up to `r` snapshots are dequeued
and drawn in order (breaking when the queue empties); `lastFrameTime` and
`lastRenderTime` advance only on the iteration `i = snapshotsToProcess - 1`
(here: when the remaining count after this iteration is zero).  Returns the
final state and the snapshots drawn, in draw order. -/
def processLoop (cfg : Config) (currentTime : ℚ) :
    ℕ → ClientState Snapshot → List Snapshot → ClientState Snapshot × List Snapshot
  | 0, s, drawn => (s, drawn)
  | r + 1, s, drawn =>
    match s.snapshotQueue with
    | [] => (s, drawn)
    | snap :: rest =>
      let s1 := { s with snapshotQueue := rest }
      let s2 := drawSnapshot cfg s1 snap
      let s3 :=
        if r = 0 then { s2 with lastFrameTime := currentTime, lastRenderTime := currentTime }
        else s2
      processLoop cfg currentTime r s3 (drawn ++ [snap])

/-- drawSEC adds one dirty region per circle, at the factor-scaled center
with the factor-scaled radius as size. -/
def secRegion (c : (ℚ × ℚ) × ℚ) : Region :=
  ⟨c.1.1 * ROBOT_X_POS_FACTOR, c.1.2 * ROBOT_Y_POS_FACTOR, c.2 * ROBOT_X_POS_FACTOR⟩

/-- One invocation of drawLoop(currentTime): no-op when stopped or without an
active simulation; skipped when throttled (unless a viewport update is
pending); otherwise, when the frame period elapsed and playback is not
paused, dequeue and draw the catch-up batch — and if nothing could be drawn,
stop the loop and draw the final SEC overlay.  Returns the new state and the
snapshots passed to the draw step this tick. -/
def drawLoopTick (cfg : Config) (s : ClientState Snapshot) (currentTime : ℚ) :
    ClientState Snapshot × List Snapshot :=
  if s.stopAnimation then (s, [])
  else if s.simulationId = none then (s, [])
  else if currentTime - s.lastRenderTime < RENDER_THROTTLE_MS ∧ ¬ s.needsViewportUpdate then
    (s, [])
  else if currentTime - s.lastFrameTime ≥ timePerFrameMs ∧ ¬ s.paused then
    let res := processLoop cfg currentTime (snapshotsToProcessCount s.snapshotQueue.length) s []
    if res.2.isEmpty then
      ({ res.1 with
          stopAnimation := true
          drawingSimulation := false
          dirtyRegions := res.1.dirtyRegions ++ res.1.sec.map secRegion }, [])
    else res
  else (s, [])

/-! ## Playback traces -/

/-- An interleaving of ingress enqueues (the `snapshotQueue.enqueue` calls of
the handlers for the active run; `Queue.js` is absent from the repository and
its FIFO contract is modelled from the specification) and scheduler ticks at
given clock values. -/
inductive PlaybackEvent
  | enq (snap : Snapshot)
  | tick (currentTime : ℚ)

/-- Run a list of playback events from a state, collecting every snapshot
passed to the draw step, in order. -/
def runTrace (cfg : Config) : List PlaybackEvent → ClientState Snapshot →
    ClientState Snapshot × List Snapshot
  | [], s => (s, [])
  | PlaybackEvent.enq snap :: evs, s =>
    runTrace cfg evs { s with snapshotQueue := s.snapshotQueue ++ [snap] }
  | PlaybackEvent.tick ct :: evs, s =>
    let p := drawLoopTick cfg s ct
    let q := runTrace cfg evs p.1
    (q.1, p.2 ++ q.2)

/-- The snapshots enqueued by a trace, in order. -/
def enqueuedOf : List PlaybackEvent → List Snapshot
  | [] => []
  | PlaybackEvent.enq snap :: evs => snap :: enqueuedOf evs
  | PlaybackEvent.tick _ :: evs => enqueuedOf evs

/-! ## Concrete example inputs -/

/-- Example configuration: an 800×600 surface with the source defaults
(`Robot.ROBOT_SIZE = 10`, `show_visibility = true`,
`visibility_radius = 1500`). -/
def cfgDefault : Config :=
  { canvasW := 800, canvasH := 600, robotSize := 10, show_visibility := true,
    visibility_radius := 1500 }

/-- Example configuration with the visibility overlay off and a zero
configured radius (exercising the `|| 20` default in the old-position region
size). -/
def cfgPlain : Config :=
  { canvasW := 800, canvasH := 600, robotSize := 10, show_visibility := false,
    visibility_radius := 0 }

/-- A mid-playback state: active run 0, every container empty, animation
running, not paused, past the first render. -/
def runningState (σ : Type) : ClientState σ where
  robots := []
  snapshotQueue := []
  dirtyRegions := []
  robotPrevPositions := []
  paused := false
  lastFrameTime := 0
  lastRenderTime := 0
  stopAnimation := false
  currRobotId := 0
  simulationId := some 0
  sec := []
  drawingSimulation := true
  viewScale := 1
  viewCenterX := 0
  viewCenterY := 0
  needsViewportUpdate := false
  isFirstRender := false
  timeDisplay := none
  initialPositions := []

/-- A snapshot with the given time and no robots. -/
def snapAt (t : ℚ) : Snapshot := ⟨t, []⟩

/-- A backlog of ten buffered snapshots (times 0‥9). -/
def stTen : ClientState Snapshot :=
  { runningState Snapshot with
    snapshotQueue :=
      [snapAt 0, snapAt 1, snapAt 2, snapAt 3, snapAt 4,
       snapAt 5, snapAt 6, snapAt 7, snapAt 8, snapAt 9] }

/-- A batch item of the active run 0 (client snapshot payload). -/
def itemActive : SimulationDataItem Snapshot := ⟨0, snapAt 0⟩

/-- A batch item of the stale run 1 (client snapshot payload). -/
def itemStale : SimulationDataItem Snapshot := ⟨1, snapAt 1⟩

/-- A batch item of the active run 0 (worker-shaped payload). -/
def wItemActive : SimulationDataItem WorkerSnapshot := ⟨0, none⟩

/-- A batch item of the stale run 1 (worker-shaped payload). -/
def wItemStale : SimulationDataItem WorkerSnapshot := ⟨1, none⟩

/-- A stats payload with no per-robot details (so `calculateStats` returns
the bare spread). -/
def statsEx : StatsPayload := ⟨some ⟨10, 2, []⟩⟩

/-- A one-item worker batch whose snapshot holds one robot at the origin. -/
def wBatchEx : List (SimulationDataItem WorkerSnapshot) :=
  [⟨0, some [("a", ⟨(0, 0)⟩)]⟩]

/-- The processed item the worker produces for `wBatchEx` on an empty cache:
no previous position is cached, so no movement is recorded. -/
def processedEx : ProcessedItem :=
  ⟨⟨0, some [("a", ⟨(0, 0)⟩)]⟩, ⟨false, []⟩, false⟩

/-- A state whose previous-position map places robot "r" at the origin. -/
def stPrevOrigin : ClientState Snapshot :=
  { runningState Snapshot with robotPrevPositions := [("r", (0, 0))] }

/-- A snapshot moving robot "r" far off-canvas (x = 10000). -/
def snapFar : Snapshot := ⟨1, [("r", ⟨(10000, 0), "MOVE", 1, "black"⟩)]⟩

/-- The robots-history entry moving robot "r" to (10, 0). -/
def entryNear : String × RobotSnap := ("r", ⟨(10, 0), "MOVE", 1, "black"⟩)

/-- Two robots at (-5,-5) and (5,5): the spec's viewport-fit example. -/
def rhPair : List (String × RobotSnap) :=
  [("0", ⟨(-5, -5), "LOOK", 1, "black"⟩), ("1", ⟨(5, 5), "LOOK", 1, "black"⟩)]

/-- The spec's viewport example as a first snapshot. -/
def snapPair : Snapshot := ⟨0, rhPair⟩

/-- A first-render state (fresh run, nothing drawn yet). -/
def stFirstRender : ClientState Snapshot :=
  { runningState Snapshot with isFirstRender := true, needsViewportUpdate := true }

/-- A small example trace: two enqueues and one tick. -/
def traceEx : List PlaybackEvent :=
  [PlaybackEvent.enq (snapAt 0), PlaybackEvent.enq (snapAt 1), PlaybackEvent.tick 100]

/-! ## Helper lemmas -/

theorem processEntry_snapshotQueue (cfg : Config) (s : ClientState Snapshot)
    (e : String × RobotSnap) : (processEntry cfg s e).snapshotQueue = s.snapshotQueue := rfl

theorem processEntry_timeDisplay (cfg : Config) (s : ClientState Snapshot)
    (e : String × RobotSnap) : (processEntry cfg s e).timeDisplay = s.timeDisplay := rfl

theorem processEntry_viewScale (cfg : Config) (s : ClientState Snapshot)
    (e : String × RobotSnap) : (processEntry cfg s e).viewScale = s.viewScale := rfl

theorem processEntry_viewCenterX (cfg : Config) (s : ClientState Snapshot)
    (e : String × RobotSnap) : (processEntry cfg s e).viewCenterX = s.viewCenterX := rfl

theorem processEntry_viewCenterY (cfg : Config) (s : ClientState Snapshot)
    (e : String × RobotSnap) : (processEntry cfg s e).viewCenterY = s.viewCenterY := rfl

theorem processEntry_isFirstRender (cfg : Config) (s : ClientState Snapshot)
    (e : String × RobotSnap) : (processEntry cfg s e).isFirstRender = s.isFirstRender := rfl

theorem foldl_processEntry_snapshotQueue (cfg : Config)
    (l : List (String × RobotSnap)) :
    ∀ s : ClientState Snapshot, (l.foldl (processEntry cfg) s).snapshotQueue = s.snapshotQueue := by
  induction l with
  | nil => intro s; rfl
  | cons e rest ih =>
    intro s
    rw [List.foldl_cons, ih]
    exact processEntry_snapshotQueue cfg s e

theorem foldl_processEntry_timeDisplay (cfg : Config)
    (l : List (String × RobotSnap)) :
    ∀ s : ClientState Snapshot, (l.foldl (processEntry cfg) s).timeDisplay = s.timeDisplay := by
  induction l with
  | nil => intro s; rfl
  | cons e rest ih =>
    intro s
    rw [List.foldl_cons, ih]
    exact processEntry_timeDisplay cfg s e

theorem foldl_processEntry_viewScale (cfg : Config)
    (l : List (String × RobotSnap)) :
    ∀ s : ClientState Snapshot, (l.foldl (processEntry cfg) s).viewScale = s.viewScale := by
  induction l with
  | nil => intro s; rfl
  | cons e rest ih =>
    intro s
    rw [List.foldl_cons, ih]
    exact processEntry_viewScale cfg s e

theorem foldl_processEntry_viewCenterX (cfg : Config)
    (l : List (String × RobotSnap)) :
    ∀ s : ClientState Snapshot, (l.foldl (processEntry cfg) s).viewCenterX = s.viewCenterX := by
  induction l with
  | nil => intro s; rfl
  | cons e rest ih =>
    intro s
    rw [List.foldl_cons, ih]
    exact processEntry_viewCenterX cfg s e

theorem foldl_processEntry_viewCenterY (cfg : Config)
    (l : List (String × RobotSnap)) :
    ∀ s : ClientState Snapshot, (l.foldl (processEntry cfg) s).viewCenterY = s.viewCenterY := by
  induction l with
  | nil => intro s; rfl
  | cons e rest ih =>
    intro s
    rw [List.foldl_cons, ih]
    exact processEntry_viewCenterY cfg s e

theorem foldl_processEntry_isFirstRender (cfg : Config)
    (l : List (String × RobotSnap)) :
    ∀ s : ClientState Snapshot, (l.foldl (processEntry cfg) s).isFirstRender = s.isFirstRender := by
  induction l with
  | nil => intro s; rfl
  | cons e rest ih =>
    intro s
    rw [List.foldl_cons, ih]
    exact processEntry_isFirstRender cfg s e

theorem foldl_processEntry_dirty_mono (cfg : Config)
    (l : List (String × RobotSnap)) :
    ∀ (s : ClientState Snapshot) (r : Region),
      r ∈ s.dirtyRegions → r ∈ (l.foldl (processEntry cfg) s).dirtyRegions := by
  induction l with
  | nil => intro s r h; exact h
  | cons e rest ih =>
    intro s r h
    rw [List.foldl_cons]
    exact ih _ r (List.mem_append_left _ (List.mem_append_left _ h))

theorem applyFirstRenderFit_snapshotQueue (cw ch : ℚ) (s : ClientState Snapshot)
    (snap : Snapshot) :
    (applyFirstRenderFit cw ch s snap).snapshotQueue = s.snapshotQueue := by
  unfold applyFirstRenderFit
  split
  · split <;> rfl
  · rfl

theorem applyFirstRenderFit_timeDisplay (cw ch : ℚ) (s : ClientState Snapshot)
    (snap : Snapshot) :
    (applyFirstRenderFit cw ch s snap).timeDisplay = s.timeDisplay := by
  unfold applyFirstRenderFit
  split
  · split <;> rfl
  · rfl

theorem applyFirstRenderFit_of_not_first (cw ch : ℚ) (s : ClientState Snapshot)
    (snap : Snapshot) (h : s.isFirstRender = false) :
    applyFirstRenderFit cw ch s snap = s := by
  unfold applyFirstRenderFit
  rw [h]
  simp

theorem applyFirstRenderFit_of_first (cw ch : ℚ) (s : ClientState Snapshot)
    (snap : Snapshot) (sc cx cy : ℚ) (h : s.isFirstRender = true)
    (hf : fitScaleCenter cw ch snap.robotsHistory = some (sc, cx, cy)) :
    applyFirstRenderFit cw ch s snap =
      { s with
        viewScale := sc
        viewCenterX := cx
        viewCenterY := cy
        needsViewportUpdate := true
        isFirstRender := false } := by
  unfold applyFirstRenderFit
  rw [h, hf]
  simp

theorem drawSnapshot_snapshotQueue (cfg : Config) (s : ClientState Snapshot)
    (snap : Snapshot) : (drawSnapshot cfg s snap).snapshotQueue = s.snapshotQueue := by
  show (snap.robotsHistory.foldl (processEntry cfg)
      { applyFirstRenderFit cfg.canvasW cfg.canvasH { s with timeDisplay := some snap.time }
          snap with
        dirtyRegions := [] }).snapshotQueue = s.snapshotQueue
  rw [foldl_processEntry_snapshotQueue]
  exact applyFirstRenderFit_snapshotQueue cfg.canvasW cfg.canvasH _ snap

theorem drawSnapshot_timeDisplay (cfg : Config) (s : ClientState Snapshot)
    (snap : Snapshot) : (drawSnapshot cfg s snap).timeDisplay = some snap.time := by
  show (snap.robotsHistory.foldl (processEntry cfg)
      { applyFirstRenderFit cfg.canvasW cfg.canvasH { s with timeDisplay := some snap.time }
          snap with
        dirtyRegions := [] }).timeDisplay = some snap.time
  rw [foldl_processEntry_timeDisplay]
  exact applyFirstRenderFit_timeDisplay cfg.canvasW cfg.canvasH _ snap

theorem processLoop_spec (cfg : Config) (ct : ℚ) :
    ∀ (r : ℕ) (s : ClientState Snapshot) (drawn : List Snapshot),
      (processLoop cfg ct r s drawn).1.snapshotQueue = s.snapshotQueue.drop r ∧
      (processLoop cfg ct r s drawn).2 = drawn ++ s.snapshotQueue.take r := by
  intro r
  induction r with
  | zero => intro s drawn; simp [processLoop]
  | succ r ih =>
    intro s drawn
    cases hq : s.snapshotQueue with
    | nil => simp [processLoop, hq]
    | cons snap rest =>
      simp only [processLoop, hq]
      obtain ⟨h1, h2⟩ := ih
        (if r = 0 then
          { drawSnapshot cfg { s with snapshotQueue := rest } snap with
            lastFrameTime := ct, lastRenderTime := ct }
         else drawSnapshot cfg { s with snapshotQueue := rest } snap)
        (drawn ++ [snap])
      have hsq :
          (if r = 0 then
            { drawSnapshot cfg { s with snapshotQueue := rest } snap with
              lastFrameTime := ct, lastRenderTime := ct }
           else drawSnapshot cfg { s with snapshotQueue := rest } snap).snapshotQueue = rest := by
        split
        · show (drawSnapshot cfg { s with snapshotQueue := rest } snap).snapshotQueue = rest
          rw [drawSnapshot_snapshotQueue]
        · rw [drawSnapshot_snapshotQueue]
      constructor
      · rw [h1, hsq]
        rfl
      · rw [h2, hsq]
        simp

theorem getLastOr_cons (l : List Snapshot) (snap : Snapshot) (z : Option ℚ) :
    (((snap :: l).getLast?).map Snapshot.time).or z =
      ((l.getLast?).map Snapshot.time).or (some snap.time) := by
  cases l with
  | nil => simp
  | cons b l2 =>
    rw [List.getLast?_cons_cons]
    cases hx : (b :: l2).getLast? with
    | none => simp at hx
    | some x => simp

theorem processLoop_timeDisplay (cfg : Config) (ct : ℚ) :
    ∀ (r : ℕ) (s : ClientState Snapshot) (drawn : List Snapshot),
      (processLoop cfg ct r s drawn).1.timeDisplay =
        (((s.snapshotQueue.take r).getLast?).map Snapshot.time).or s.timeDisplay := by
  intro r
  induction r with
  | zero => intro s drawn; simp [processLoop]
  | succ r ih =>
    intro s drawn
    cases hq : s.snapshotQueue with
    | nil => simp [processLoop, hq]
    | cons snap rest =>
      simp only [processLoop, hq]
      rw [ih]
      have hsq :
          (if r = 0 then
            { drawSnapshot cfg { s with snapshotQueue := rest } snap with
              lastFrameTime := ct, lastRenderTime := ct }
           else drawSnapshot cfg { s with snapshotQueue := rest } snap).snapshotQueue = rest := by
        split
        · show (drawSnapshot cfg { s with snapshotQueue := rest } snap).snapshotQueue = rest
          rw [drawSnapshot_snapshotQueue]
        · rw [drawSnapshot_snapshotQueue]
      have hst :
          (if r = 0 then
            { drawSnapshot cfg { s with snapshotQueue := rest } snap with
              lastFrameTime := ct, lastRenderTime := ct }
           else drawSnapshot cfg { s with snapshotQueue := rest } snap).timeDisplay =
            some snap.time := by
        split
        · show (drawSnapshot cfg { s with snapshotQueue := rest } snap).timeDisplay = some snap.time
          rw [drawSnapshot_timeDisplay]
        · rw [drawSnapshot_timeDisplay]
      rw [hsq, hst, List.take_succ_cons, getLastOr_cons]

theorem snapshotsToProcessCount_pos (n : ℕ) : 1 ≤ snapshotsToProcessCount n := by
  unfold snapshotsToProcessCount
  split
  · rename_i h
    exact le_min (by omega) (by omega)
  · exact Nat.le_refl 1

theorem snapshotsToProcessCount_of_backlog (n : ℕ) (h : 5 < n) :
    snapshotsToProcessCount n = 3 := by
  unfold snapshotsToProcessCount
  rw [if_pos h]
  exact Nat.min_eq_left (by omega)

theorem drawLoopTick_drawn_queue (cfg : Config) (s : ClientState Snapshot) (ct : ℚ) :
    (drawLoopTick cfg s ct).2 ++ (drawLoopTick cfg s ct).1.snapshotQueue = s.snapshotQueue := by
  obtain ⟨hq, hd⟩ := processLoop_spec cfg ct (snapshotsToProcessCount s.snapshotQueue.length) s []
  simp only [drawLoopTick]
  split
  · rfl
  split
  · rfl
  split
  · rfl
  split
  · split
    · rename_i hempty
      have htake :
          s.snapshotQueue.take (snapshotsToProcessCount s.snapshotQueue.length) = [] := by
        rw [hd] at hempty
        simpa using hempty
      have hnil : s.snapshotQueue = [] := by
        rcases List.take_eq_nil_iff.mp htake with h0 | h0
        · have := snapshotsToProcessCount_pos s.snapshotQueue.length
          omega
        · exact h0
      show ([] : List Snapshot) ++
        (processLoop cfg ct (snapshotsToProcessCount s.snapshotQueue.length) s []).1.snapshotQueue
          = s.snapshotQueue
      rw [List.nil_append, hq, hnil, List.drop_nil]
    · rw [hd, hq]
      simp [List.take_append_drop]
  · rfl

theorem runTrace_drawn_append_queue (cfg : Config) :
    ∀ (evs : List PlaybackEvent) (s : ClientState Snapshot),
      (runTrace cfg evs s).2 ++ (runTrace cfg evs s).1.snapshotQueue =
        s.snapshotQueue ++ enqueuedOf evs := by
  intro evs
  induction evs with
  | nil => intro s; simp [runTrace, enqueuedOf]
  | cons ev rest ih =>
    intro s
    cases ev with
    | enq snap =>
      simp only [runTrace, enqueuedOf]
      rw [ih]
      simp
    | tick ct =>
      simp only [runTrace, enqueuedOf]
      rw [List.append_assoc, ih, ← List.append_assoc, drawLoopTick_drawn_queue]

theorem processBatchResultItem_simulationId (now : ℚ) (st : ClientState WorkerSnapshot)
    (p : ProcessedItem) :
    (processBatchResultItem now st p).simulationId = st.simulationId := by
  simp only [processBatchResultItem]
  split <;> split <;> rfl

theorem processBatchResultItem_queue (now : ℚ) (st : ClientState WorkerSnapshot)
    (p : ProcessedItem) :
    (processBatchResultItem now st p).snapshotQueue =
      st.snapshotQueue ++
        (if st.simulationId = some p.item.simulation_id then [p.item.snapshot] else []) := by
  simp only [processBatchResultItem]
  by_cases hs : st.simulationId = some p.item.simulation_id
  · cases hb : p.needsFullRedraw <;> simp [hb, hs, startDrawingLoop]
  · cases hb : p.needsFullRedraw <;> simp [hb, hs, startDrawingLoop]

theorem foldl_processBatchResultItem (now : ℚ) :
    ∀ (pd : List ProcessedItem) (st : ClientState WorkerSnapshot),
      ((pd.foldl (processBatchResultItem now) st).snapshotQueue =
        st.snapshotQueue ++
          (pd.filter (fun p => st.simulationId == some p.item.simulation_id)).map
            (fun p => p.item.snapshot)) ∧
      (pd.foldl (processBatchResultItem now) st).simulationId = st.simulationId := by
  intro pd
  induction pd with
  | nil => intro st; simp
  | cons p rest ih =>
    intro st
    obtain ⟨ihq, ihs⟩ := ih (processBatchResultItem now st p)
    rw [List.foldl_cons]
    constructor
    · rw [ihq, processBatchResultItem_queue, processBatchResultItem_simulationId]
      by_cases hs : st.simulationId = some p.item.simulation_id
      · simp [hs, List.filter_cons]
      · simp [hs, List.filter_cons]
    · rw [ihs, processBatchResultItem_simulationId]

theorem processBatchResults_queue (now : ℚ) (s : ClientState WorkerSnapshot)
    (pd : List ProcessedItem) :
    (processBatchResults now s pd).snapshotQueue =
      s.snapshotQueue ++
        (pd.filter (fun p => s.simulationId == some p.item.simulation_id)).map
          (fun p => p.item.snapshot) := by
  unfold processBatchResults
  split
  · rename_i h
    rw [List.isEmpty_iff.mp h]
    simp
  · exact (foldl_processBatchResultItem now pd s).1

theorem processBatchGo_spec :
    ∀ (l : List (SimulationDataItem WorkerSnapshot)) (c : Cache),
      ((processBatchGo l c).1.map ProcessedItem.item = l) ∧
      (∀ p ∈ (processBatchGo l c).1,
        p.needsFullRedraw = p.robotMovements.significantMovement) := by
  intro l
  induction l with
  | nil => intro c; simp [processBatchGo]
  | cons it rest ih =>
    intro c
    obtain ⟨ih1, ih2⟩ := ih (calculateRobotMovements it c).2
    simp only [processBatchGo]
    constructor
    · simp [ih1]
    · intro p hp
      rcases List.mem_cons.mp hp with h | h
      · rw [h]
      · exact ih2 p h

theorem fitScaleCenter_scale_bounds (cw ch : ℚ) (rh : List (String × RobotSnap))
    (sc cx cy : ℚ) (h : fitScaleCenter cw ch rh = some (sc, cx, cy)) :
    (3 / 10 : ℚ) ≤ sc ∧ sc ≤ 1 := by
  cases rh with
  | nil => simp [fitScaleCenter] at h
  | cons e rest =>
    simp only [fitScaleCenter, Option.some.injEq, Prod.mk.injEq] at h
    obtain ⟨hsc, hcx, hcy⟩ := h
    rw [← hsc]
    constructor
    · exact le_max_right _ _
    · exact max_le ((min_le_right _ _).trans (min_le_right _ _)) (by norm_num)

theorem drawLoopTick_catchup (cfg : Config) (s : ClientState Snapshot) (ct : ℚ)
    (h1 : s.stopAnimation = false) (h2 : s.simulationId ≠ none)
    (h3 : ¬(ct - s.lastRenderTime < RENDER_THROTTLE_MS ∧ ¬ s.needsViewportUpdate))
    (h4 : ct - s.lastFrameTime ≥ timePerFrameMs) (h5 : s.paused = false)
    (h6 : 5 < s.snapshotQueue.length) :
    (drawLoopTick cfg s ct).2 = s.snapshotQueue.take 3 ∧
    (drawLoopTick cfg s ct).1.snapshotQueue = s.snapshotQueue.drop 3 ∧
    (drawLoopTick cfg s ct).2.length = min 3 (s.snapshotQueue.length / 2) ∧
    (drawLoopTick cfg s ct).1.timeDisplay =
      (((s.snapshotQueue.take 3).getLast?).map Snapshot.time).or s.timeDisplay := by
  have hk := snapshotsToProcessCount_of_backlog s.snapshotQueue.length h6
  obtain ⟨hqq, hdd⟩ :=
    processLoop_spec cfg ct (snapshotsToProcessCount s.snapshotQueue.length) s []
  have htd := processLoop_timeDisplay cfg ct (snapshotsToProcessCount s.snapshotQueue.length) s []
  rw [hk] at hqq hdd htd
  have hne :
      ¬ (processLoop cfg ct (snapshotsToProcessCount s.snapshotQueue.length) s []).2.isEmpty
        = true := by
    rw [hk, hdd]
    intro hcon
    rw [List.nil_append, List.isEmpty_iff] at hcon
    rcases List.take_eq_nil_iff.mp hcon with h0 | h0
    · omega
    · rw [h0] at h6
      simp at h6
  simp only [drawLoopTick]
  rw [if_neg (by simp [h1]), if_neg h2, if_neg h3,
    if_pos (⟨h4, by simp [h5]⟩ : ct - s.lastFrameTime ≥ timePerFrameMs ∧ ¬ s.paused),
    if_neg hne, hk]
  refine ⟨by rw [hdd]; simp, hqq, ?_, htd⟩
  rw [hdd]
  simp only [List.nil_append, List.length_take]
  omega

/-! ## Claim theorems -/

/-- C9: Idempotent clear — `clearSimulation` twice in a row (in particular
from the Idle state) produces no observable state change the second time:
the whole client state (queue, dirty regions, viewport state, entity
tracking, pause flag, run id, …) after the second clear equals the state
after the first. -/
theorem clear_idempotent (σ : Type) (s : ClientState σ) :
    clearSimulation (clearSimulation s) = clearSimulation s := rfl

/-- C3: Run supersession — issuing a start (the start_simulation handler)
from ANY prior state and any buffered queue contents leaves an empty
snapshot queue and the new run id active immediately after the
transition. -/
theorem start_supersedes (σ : Type) (s : ClientState σ) (newId : ℕ) (now : ℚ) :
    (startSimulationFn s newId now).snapshotQueue = [] ∧
    (startSimulationFn s newId now).simulationId = some newId :=
  ⟨rfl, rfl⟩

/-- C6 counterexample: the clear transition (`clearSimulation`) posts NO
worker message at all — in particular no clearCache — even though a worker
exists, refuting "a clearCache message is sent on every clear transition". -/
theorem clearCache_on_clear_counterexample :
    (clearSimulationEmits (runningState Snapshot)).2 = [] ∧
    WorkerMsgKind.clearCache ∉ (clearSimulationEmits (runningState Snapshot)).2 :=
  ⟨rfl, by decide⟩

/-- C6 (amended): a clearCache message is sent on every simulation_start
transition when the worker exists (and only then); the clear transition
sends no worker message. -/
theorem clearCache_on_start_only (σ : Type) (s : ClientState σ) (newId : ℕ) :
    (onSimulationStartEmits true s newId).2 = [WorkerMsgKind.clearCache] ∧
    (onSimulationStartEmits false s newId).2 = [] ∧
    (clearSimulationEmits s).2 = [] :=
  ⟨rfl, rfl, rfl⟩

/-- C1: Order preservation — over any interleaving of enqueues and scheduler
ticks starting from an empty queue, the sequence of snapshots passed to the
draw step is a subsequence (in fact a prefix) of the enqueued sequence, in
the same relative order, regardless of how many snapshots catch-up consumes
per tick. -/
theorem drawLoop_order_preservation (cfg : Config) (evs : List PlaybackEvent)
    (s : ClientState Snapshot) (h : s.snapshotQueue = []) :
    List.Sublist (runTrace cfg evs s).2 (enqueuedOf evs) := by
  have hinv := runTrace_drawn_append_queue cfg evs s
  rw [h, List.nil_append] at hinv
  have hsub : List.Sublist (runTrace cfg evs s).2
      ((runTrace cfg evs s).2 ++ (runTrace cfg evs s).1.snapshotQueue) :=
    List.sublist_append_left _ _
  rwa [hinv] at hsub

/-- C1 witness: the order-preservation theorem applied to a concrete trace
from a concrete empty-queue state. -/
theorem drawLoop_order_preservation_witness :
    List.Sublist (runTrace cfgDefault traceEx (runningState Snapshot)).2
      (enqueuedOf traceEx) :=
  drawLoop_order_preservation cfgDefault traceEx (runningState Snapshot) rfl

/-- C10: worker batch shape preservation — processBatch of a non-array is
`[]`; otherwise the output has exactly one element per input snapshot, in
order, each equal to the corresponding input item extended with
`robotMovements` and with `needsFullRedraw = robotMovements.significantMovement`
(the item's own fields unchanged, witnessed by the `item` projection). -/
theorem processBatch_shape (c : Cache) (l : List (SimulationDataItem WorkerSnapshot)) :
    (processBatch none c).1 = [] ∧
    (processBatch (some l) c).1.map ProcessedItem.item = l ∧
    ∀ p ∈ (processBatch (some l) c).1,
      p.needsFullRedraw = p.robotMovements.significantMovement :=
  ⟨rfl, (processBatchGo_spec l c).1, (processBatchGo_spec l c).2⟩

/-- C10 witness: the shape theorem applied to a concrete one-item batch and
the empty cache; the membership hypothesis is discharged at the concrete
processed item. -/
theorem processBatch_shape_witness :
    (processBatch (some wBatchEx) ([] : Cache)).1.map ProcessedItem.item = wBatchEx ∧
    processedEx ∈ (processBatch (some wBatchEx) ([] : Cache)).1 ∧
    processedEx.needsFullRedraw = processedEx.robotMovements.significantMovement := by
  have hmem : processedEx ∈ (processBatch (some wBatchEx) ([] : Cache)).1 := by decide
  exact ⟨(processBatch_shape [] wBatchEx).2.1, hmem,
    (processBatch_shape [] wBatchEx).2.2 processedEx hmem⟩

/-- C7: Viewport fit — the fit is a pure function of the first snapshot's
padded bounding box and the surface size, its scale is always clamped into
[0.3, 1.0]; `drawSnapshot` applies it exactly on the first render (setting
scale and center from `fitScaleCenter` and clearing the flag) and leaves
scale and center untouched on every subsequent snapshot of the run. -/
theorem viewport_fit_once (cfg : Config) :
    (∀ (cw ch : ℚ) (rh : List (String × RobotSnap)) (sc cx cy : ℚ),
      fitScaleCenter cw ch rh = some (sc, cx, cy) → (3 / 10 : ℚ) ≤ sc ∧ sc ≤ 1)
    ∧ (∀ (s : ClientState Snapshot) (snap : Snapshot), s.isFirstRender = false →
        (drawSnapshot cfg s snap).viewScale = s.viewScale ∧
        (drawSnapshot cfg s snap).viewCenterX = s.viewCenterX ∧
        (drawSnapshot cfg s snap).viewCenterY = s.viewCenterY)
    ∧ (∀ (s : ClientState Snapshot) (snap : Snapshot) (sc cx cy : ℚ),
        s.isFirstRender = true →
        fitScaleCenter cfg.canvasW cfg.canvasH snap.robotsHistory = some (sc, cx, cy) →
        (drawSnapshot cfg s snap).viewScale = sc ∧
        (drawSnapshot cfg s snap).viewCenterX = cx ∧
        (drawSnapshot cfg s snap).viewCenterY = cy ∧
        (drawSnapshot cfg s snap).isFirstRender = false) := by
  refine ⟨fitScaleCenter_scale_bounds, ?_, ?_⟩
  · intro s snap h
    have hfit := applyFirstRenderFit_of_not_first cfg.canvasW cfg.canvasH
      { s with timeDisplay := some snap.time } snap h
    refine ⟨?_, ?_, ?_⟩
    · show (snap.robotsHistory.foldl (processEntry cfg)
        { applyFirstRenderFit cfg.canvasW cfg.canvasH
            { s with timeDisplay := some snap.time } snap with
          dirtyRegions := [] }).viewScale = s.viewScale
      rw [foldl_processEntry_viewScale, hfit]
    · show (snap.robotsHistory.foldl (processEntry cfg)
        { applyFirstRenderFit cfg.canvasW cfg.canvasH
            { s with timeDisplay := some snap.time } snap with
          dirtyRegions := [] }).viewCenterX = s.viewCenterX
      rw [foldl_processEntry_viewCenterX, hfit]
    · show (snap.robotsHistory.foldl (processEntry cfg)
        { applyFirstRenderFit cfg.canvasW cfg.canvasH
            { s with timeDisplay := some snap.time } snap with
          dirtyRegions := [] }).viewCenterY = s.viewCenterY
      rw [foldl_processEntry_viewCenterY, hfit]
  · intro s snap sc cx cy h hf
    have hfit := applyFirstRenderFit_of_first cfg.canvasW cfg.canvasH
      { s with timeDisplay := some snap.time } snap sc cx cy h hf
    refine ⟨?_, ?_, ?_, ?_⟩
    · show (snap.robotsHistory.foldl (processEntry cfg)
        { applyFirstRenderFit cfg.canvasW cfg.canvasH
            { s with timeDisplay := some snap.time } snap with
          dirtyRegions := [] }).viewScale = sc
      rw [foldl_processEntry_viewScale, hfit]
    · show (snap.robotsHistory.foldl (processEntry cfg)
        { applyFirstRenderFit cfg.canvasW cfg.canvasH
            { s with timeDisplay := some snap.time } snap with
          dirtyRegions := [] }).viewCenterX = cx
      rw [foldl_processEntry_viewCenterX, hfit]
    · show (snap.robotsHistory.foldl (processEntry cfg)
        { applyFirstRenderFit cfg.canvasW cfg.canvasH
            { s with timeDisplay := some snap.time } snap with
          dirtyRegions := [] }).viewCenterY = cy
      rw [foldl_processEntry_viewCenterY, hfit]
    · show (snap.robotsHistory.foldl (processEntry cfg)
        { applyFirstRenderFit cfg.canvasW cfg.canvasH
            { s with timeDisplay := some snap.time } snap with
          dirtyRegions := [] }).isFirstRender = false
      rw [foldl_processEntry_isFirstRender, hfit]

/-- C7 witness: the fit of the spec's example (entities at (-5,-5) and
(5,5) on an 800×600 surface) is scale 1 centered at the origin, and applying
the first render from a concrete first-render state sets exactly these
values. -/
theorem viewport_fit_once_witness :
    ((3 / 10 : ℚ) ≤ 1 ∧ (1 : ℚ) ≤ 1) ∧
    (drawSnapshot cfgDefault stFirstRender snapPair).viewScale = 1 ∧
    (drawSnapshot cfgDefault stFirstRender snapPair).viewCenterX = 0 ∧
    (drawSnapshot cfgDefault stFirstRender snapPair).viewCenterY = 0 ∧
    (drawSnapshot cfgDefault stFirstRender snapPair).isFirstRender = false := by
  have hf : fitScaleCenter cfgDefault.canvasW cfgDefault.canvasH snapPair.robotsHistory
      = some (1, 0, 0) := by
    norm_num [fitScaleCenter, rhPair, snapPair, cfgDefault, ROBOT_X_POS_FACTOR,
      ROBOT_Y_POS_FACTOR, min_def, max_def]
  obtain ⟨h1, h2, h3, h4⟩ :=
    (viewport_fit_once cfgDefault).2.2 stFirstRender snapPair 1 0 0 rfl hf
  exact ⟨(viewport_fit_once cfgDefault).1 cfgDefault.canvasW cfgDefault.canvasH
    snapPair.robotsHistory 1 0 0 hf, h1, h2, h3, h4⟩

/-- C2 counterexample: with ten buffered snapshots and due frame timing, the
tick passes ALL THREE dequeued snapshots to the draw step individually
(drawSnapshot runs once per dequeued snapshot), not only the last of the
batch — refuting "repaints only after the last snapshot of the batch
(intermediate snapshots of the batch are not individually repainted)". -/
theorem catchup_policy_counterexample :
    (drawLoopTick cfgDefault stTen 100).2 = [snapAt 0, snapAt 1, snapAt 2] ∧
    (drawLoopTick cfgDefault stTen 100).2 ≠ [snapAt 2] := by
  obtain ⟨ha, _, _, _⟩ := drawLoopTick_catchup cfgDefault stTen 100 rfl (by decide)
    (by norm_num [stTen, runningState, RENDER_THROTTLE_MS])
    (by norm_num [stTen, runningState, timePerFrameMs]) rfl (by decide)
  constructor
  · rw [ha]
    rfl
  · rw [ha]
    decide

/-- C2 (amended): Catch-up policy — when the frame period has elapsed, the
controller is not paused (and the tick is neither stopped nor throttled) and
`queue.size > 5`, the tick dequeues exactly `min(3, floor(size/2))` (= 3)
snapshots; EVERY dequeued snapshot is drawn, in order (the claim's "repaints
only after the last" is what the counterexample refutes: the timing
variables, not the repaint, advance only on the last); afterwards the
displayed time equals the last dequeued snapshot's time. -/
theorem catchup_policy_amended (cfg : Config) (s : ClientState Snapshot) (ct : ℚ)
    (h1 : s.stopAnimation = false) (h2 : s.simulationId ≠ none)
    (h3 : ¬(ct - s.lastRenderTime < RENDER_THROTTLE_MS ∧ ¬ s.needsViewportUpdate))
    (h4 : ct - s.lastFrameTime ≥ timePerFrameMs) (h5 : s.paused = false)
    (h6 : 5 < s.snapshotQueue.length) :
    (drawLoopTick cfg s ct).2 = s.snapshotQueue.take 3 ∧
    (drawLoopTick cfg s ct).2.length = min 3 (s.snapshotQueue.length / 2) ∧
    (drawLoopTick cfg s ct).1.snapshotQueue = s.snapshotQueue.drop 3 ∧
    ∀ l, (s.snapshotQueue.take 3).getLast? = some l →
      (drawLoopTick cfg s ct).1.timeDisplay = some l.time := by
  obtain ⟨ha, hb, hc, hd⟩ := drawLoopTick_catchup cfg s ct h1 h2 h3 h4 h5 h6
  refine ⟨ha, hc, hb, fun l hl => ?_⟩
  rw [hd, hl]
  rfl

/-- C2 witness: the amended catch-up theorem applied to the concrete
ten-snapshot backlog at tick time 100; every hypothesis is discharged
concretely, and the displayed time is that of the third snapshot. -/
theorem catchup_policy_witness :
    (drawLoopTick cfgDefault stTen 100).2 = stTen.snapshotQueue.take 3 ∧
    (drawLoopTick cfgDefault stTen 100).2.length = min 3 (stTen.snapshotQueue.length / 2) ∧
    (drawLoopTick cfgDefault stTen 100).1.snapshotQueue = stTen.snapshotQueue.drop 3 ∧
    (drawLoopTick cfgDefault stTen 100).1.timeDisplay = some (snapAt 2).time := by
  obtain ⟨ha, hb, hc, hd⟩ := catchup_policy_amended cfgDefault stTen 100 rfl (by decide)
    (by norm_num [stTen, runningState, RENDER_THROTTLE_MS])
    (by norm_num [stTen, runningState, timePerFrameMs]) rfl (by decide)
  exact ⟨ha, hb, hc, hd (snapAt 2) (by decide)⟩

/-- C4 counterexample: the no-worker batch fallback checks only the FIRST
item's run id — a batch [run 0, run 1] delivered while run 0 is active
enqueues BOTH snapshots, so the run-1 snapshot enters the queue although its
run id differs from the active run. -/
theorem stale_run_filtering_counterexample :
    (onSimulationDataBatch false 0 (runningState Snapshot)
        (some [itemActive, itemStale])).1.snapshotQueue = [snapAt 0, snapAt 1] ∧
    itemStale.snapshot ∈ (onSimulationDataBatch false 0 (runningState Snapshot)
        (some [itemActive, itemStale])).1.snapshotQueue ∧
    itemStale.simulation_id ≠ 0 ∧
    (runningState Snapshot).simulationId = some 0 := by
  refine ⟨by decide, by decide, by decide, rfl⟩

/-- C4 (amended): Stale-run filtering — the single-event path and the
worker-response path filter per snapshot (a snapshot is enqueued iff its run
id equals the active one); the synchronous batch fallback filters only on
the FIRST item's run id: if the first item mismatches, nothing of the batch
is enqueued (and if it matches, the entire batch is — see the
counterexample). -/
theorem stale_run_filtering_amended :
    (∀ (σ : Type) (now : ℚ) (s : ClientState σ) (d : SimulationDataItem σ),
      (s.simulationId = some d.simulation_id →
        (onSimulationData now s d).snapshotQueue = s.snapshotQueue ++ [d.snapshot]) ∧
      (s.simulationId ≠ some d.simulation_id →
        (onSimulationData now s d).snapshotQueue = s.snapshotQueue))
    ∧ (∀ (now : ℚ) (s : ClientState WorkerSnapshot) (pd : List ProcessedItem),
        (processBatchResults now s pd).snapshotQueue =
          s.snapshotQueue ++
            (pd.filter (fun p => s.simulationId == some p.item.simulation_id)).map
              (fun p => p.item.snapshot))
    ∧ (∀ (σ : Type) (now : ℚ) (s : ClientState σ) (first : SimulationDataItem σ)
        (rest : List (SimulationDataItem σ)),
        s.simulationId ≠ some first.simulation_id →
        (onSimulationDataBatch false now s (some (first :: rest))).1.snapshotQueue =
          s.snapshotQueue) := by
  refine ⟨?_, processBatchResults_queue, ?_⟩
  · intro σ now s d
    constructor
    · intro h
      simp [onSimulationData, h, startDrawingLoop]
    · intro h
      simp [onSimulationData, h]
  · intro σ now s first rest h
    simp [onSimulationDataBatch, startDrawingLoop, h]

/-- C4 witness: the amended filtering theorem applied at concrete inputs —
a matching single event is enqueued, a stale single event is dropped, and a
batch whose first item is stale is dropped whole. -/
theorem stale_run_filtering_witness :
    (onSimulationData 0 (runningState Snapshot) itemActive).snapshotQueue =
      (runningState Snapshot).snapshotQueue ++ [itemActive.snapshot] ∧
    (onSimulationData 0 (runningState Snapshot) itemStale).snapshotQueue =
      (runningState Snapshot).snapshotQueue ∧
    (onSimulationDataBatch false 0 (runningState Snapshot)
        (some [itemStale, itemActive])).1.snapshotQueue =
      (runningState Snapshot).snapshotQueue :=
  ⟨(stale_run_filtering_amended.1 Snapshot 0 (runningState Snapshot) itemActive).1 rfl,
   (stale_run_filtering_amended.1 Snapshot 0 (runningState Snapshot) itemStale).2 (by decide),
   stale_run_filtering_amended.2.2 Snapshot 0 (runningState Snapshot) itemStale [itemActive]
     (by decide)⟩

/-- C5 counterexample: the fallback is NOT functionally equivalent to the
worker path — (a) with the worker disabled the stats handler computes
nothing at all, while the worker path delivers `calculateStats` output;
(b) on a mixed batch [run 0, run 1] with run 0 active, the worker round trip
enqueues one snapshot (per-item filtering) while the synchronous fallback
enqueues two (first-item filtering only). -/
theorem worker_fallback_counterexample :
    statsResultDelivered true (some statsEx) ≠ statsResultDelivered false (some statsEx) ∧
    (batchViaWorker 0 (runningState WorkerSnapshot)
        [wItemActive, wItemStale] []).1.snapshotQueue ≠
      (onSimulationDataBatch false 0 (runningState WorkerSnapshot)
        (some [wItemActive, wItemStale])).1.snapshotQueue := by
  constructor
  · simp [statsResultDelivered]
  · decide

/-- C5 (amended): Worker fallback — the two batch paths agree on the
snapshots delivered to the queue exactly for a (nonempty) batch homogeneous
in the active run id; and with the worker unavailable no ComputeStats result
is ever produced (there is no synchronous stats fallback), rather than an
identical one. -/
theorem worker_fallback_amended (now : ℚ) (s : ClientState WorkerSnapshot)
    (b : List (SimulationDataItem WorkerSnapshot)) (c : Cache) (active : ℕ)
    (hs : s.simulationId = some active)
    (hb : ∀ it ∈ b, it.simulation_id = active)
    (hne : b ≠ []) :
    (batchViaWorker now s b c).1.snapshotQueue =
      (onSimulationDataBatch false now s (some b)).1.snapshotQueue ∧
    (∀ d : Option StatsPayload, statsResultDelivered false d = none) := by
  constructor
  · have hmap := (processBatchGo_spec b c).1
    have hq := processBatchResults_queue now s (processBatchGo b c).1
    have hfilter : ((processBatchGo b c).1.filter
        (fun p => s.simulationId == some p.item.simulation_id)) = (processBatchGo b c).1 := by
      apply List.filter_eq_self.mpr
      intro p hp
      have hpb : p.item ∈ b := by
        rw [← hmap]
        exact List.mem_map_of_mem _ hp
      rw [hs, hb p.item hpb]
      simp
    have hw : (batchViaWorker now s b c).1.snapshotQueue =
        s.snapshotQueue ++ b.map (fun it => it.snapshot) := by
      show (processBatchResults now s (processBatchGo b c).1).snapshotQueue = _
      rw [hq, hfilter]
      conv_rhs => rw [← hmap, List.map_map]
      rfl
    cases b with
    | nil => exact absurd rfl hne
    | cons first rest =>
      have hfirst : first.simulation_id = active := hb first (by simp)
      have hfb : (onSimulationDataBatch false now s
          (some (first :: rest))).1.snapshotQueue =
          s.snapshotQueue ++ (first :: rest).map (fun it => it.snapshot) := by
        simp [onSimulationDataBatch, startDrawingLoop, hs, hfirst]
      rw [hw, hfb]
  · intro d
    rfl

/-- C5 witness: the amended equivalence applied to a concrete homogeneous
one-item batch of the active run, plus the concrete no-worker stats
result. -/
theorem worker_fallback_witness :
    (batchViaWorker 0 (runningState WorkerSnapshot) [wItemActive] []).1.snapshotQueue =
      (onSimulationDataBatch false 0 (runningState WorkerSnapshot)
        (some [wItemActive])).1.snapshotQueue ∧
    statsResultDelivered false (some statsEx) = none := by
  obtain ⟨h1, h2⟩ := worker_fallback_amended 0 (runningState WorkerSnapshot)
    [wItemActive] [] 0 rfl (by decide) (by decide)
  exact ⟨h1, h2 (some statsEx)⟩

/-- C8 counterexample: a robot whose recorded previous position is (0,0) and
whose new position (10000,0) lies outside the 800×600 canvas is culled by
drawRobot, so the tick records only ONE dirty region (the old position) —
refuting "two dirty regions are added in that tick" for every moved
entity. -/
theorem dirty_region_symmetry_counterexample :
    (drawSnapshot cfgPlain stPrevOrigin snapFar).dirtyRegions =
      [⟨0 * ROBOT_X_POS_FACTOR, 0 * ROBOT_Y_POS_FACTOR, oldRegionSize cfgPlain⟩] ∧
    ∀ r ∈ (drawSnapshot cfgPlain stPrevOrigin snapFar).dirtyRegions,
      ¬(r.x = 10000 ∧ r.y = 0) := by
  have h : (drawSnapshot cfgPlain stPrevOrigin snapFar).dirtyRegions =
      [⟨0 * ROBOT_X_POS_FACTOR, 0 * ROBOT_Y_POS_FACTOR, oldRegionSize cfgPlain⟩] := by
    norm_num [drawSnapshot, applyFirstRenderFit, processEntry, updatedRobot, oldPosRegions,
      newPosRegions, oldRegionSize, robotCanvasPosition, offCanvas, robotMaxRadius,
      mapLookup, mapSet, cfgPlain, stPrevOrigin, runningState, snapFar,
      ROBOT_X_POS_FACTOR, ROBOT_Y_POS_FACTOR, List.find?]
  refine ⟨h, ?_⟩
  intro r hr
  rw [h] at hr
  simp only [List.mem_singleton] at hr
  rw [hr]
  norm_num [oldRegionSize, cfgPlain, ROBOT_X_POS_FACTOR]

/-- C8 (amended): Dirty-region symmetry — for every entity whose position
differs from its recorded previous position AND whose new canvas position
passes drawRobot's on-screen culling test, processing that entity in the
tick adds both regions: one centered at the (factor-scaled) old position and
one at the new canvas position; and regions present in the tick's set are
never removed by processing further entities. -/
theorem dirty_region_symmetry_amended :
    (∀ (cfg : Config) (s : ClientState Snapshot) (e : String × RobotSnap) (px py : ℚ),
      mapLookup s.robotPrevPositions e.1 = some (px, py) →
      (px, py) ≠ e.2.pos →
      offCanvas cfg (robotCanvasPosition (updatedRobot s e)) = false →
      (⟨px * ROBOT_X_POS_FACTOR, py * ROBOT_Y_POS_FACTOR, oldRegionSize cfg⟩ : Region)
          ∈ (processEntry cfg s e).dirtyRegions ∧
      (⟨(robotCanvasPosition (updatedRobot s e)).1,
        (robotCanvasPosition (updatedRobot s e)).2,
        robotMaxRadius cfg⟩ : Region) ∈ (processEntry cfg s e).dirtyRegions)
    ∧ (∀ (cfg : Config) (l : List (String × RobotSnap)) (s : ClientState Snapshot)
        (r : Region), r ∈ s.dirtyRegions → r ∈ (l.foldl (processEntry cfg) s).dirtyRegions) := by
  refine ⟨?_, foldl_processEntry_dirty_mono⟩
  intro cfg s e px py hprev hne hvis
  have hpair : ¬(px = e.2.pos.1 ∧ py = e.2.pos.2) := by
    intro hand
    apply hne
    rw [hand.1, hand.2]
  have hmoved : (e.2.pos.1 - px) * (e.2.pos.1 - px) +
      (e.2.pos.2 - py) * (e.2.pos.2 - py) > 0 := by
    rcases not_and_or.mp hpair with h | h
    · have h1 : 0 < (e.2.pos.1 - px) * (e.2.pos.1 - px) :=
        mul_self_pos.mpr (sub_ne_zero.mpr (Ne.symm h))
      have h2 : 0 ≤ (e.2.pos.2 - py) * (e.2.pos.2 - py) := mul_self_nonneg _
      linarith
    · have h1 : 0 < (e.2.pos.2 - py) * (e.2.pos.2 - py) :=
        mul_self_pos.mpr (sub_ne_zero.mpr (Ne.symm h))
      have h2 : 0 ≤ (e.2.pos.1 - px) * (e.2.pos.1 - px) := mul_self_nonneg _
      linarith
  constructor
  · show _ ∈ s.dirtyRegions ++
      oldPosRegions cfg (mapLookup s.robotPrevPositions e.1) e.2.pos ++
      newPosRegions cfg (updatedRobot s e)
    apply List.mem_append_left
    apply List.mem_append_right
    rw [hprev]
    simp only [oldPosRegions]
    rw [if_pos hmoved]
    simp
  · show _ ∈ s.dirtyRegions ++
      oldPosRegions cfg (mapLookup s.robotPrevPositions e.1) e.2.pos ++
      newPosRegions cfg (updatedRobot s e)
    apply List.mem_append_right
    simp only [newPosRegions]
    rw [if_neg (by simp [hvis])]
    simp

/-- C8 witness: the amended theorem applied to the spec's example — robot
"r" recorded at (0,0) moving to (10,0) on-screen: both the old-position and
the new-position regions are in the tick's dirty set. -/
theorem dirty_region_symmetry_witness :
    (⟨0 * ROBOT_X_POS_FACTOR, 0 * ROBOT_Y_POS_FACTOR, oldRegionSize cfgPlain⟩ : Region)
        ∈ (processEntry cfgPlain stPrevOrigin entryNear).dirtyRegions ∧
    (⟨(robotCanvasPosition (updatedRobot stPrevOrigin entryNear)).1,
      (robotCanvasPosition (updatedRobot stPrevOrigin entryNear)).2,
      robotMaxRadius cfgPlain⟩ : Region)
        ∈ (processEntry cfgPlain stPrevOrigin entryNear).dirtyRegions := by
  have hvis : offCanvas cfgPlain (robotCanvasPosition (updatedRobot stPrevOrigin entryNear))
      = false := by
    norm_num [offCanvas, robotCanvasPosition, updatedRobot, mapLookup, stPrevOrigin,
      runningState, entryNear, robotMaxRadius, cfgPlain, ROBOT_X_POS_FACTOR,
      ROBOT_Y_POS_FACTOR, List.find?]
  exact dirty_region_symmetry_amended.1 cfgPlain stPrevOrigin entryNear 0 0 (by decide)
    (by decide) hvis
